import Mathlib

/-!
# terrahash: the `init` command

A shallow embedding of `initCmd.RunE` (`cmd/init.go`) and of the library calls it makes,
followed by theorems about the init flow: which branch returns what, which calls are made,
and what ends up in the mod lock file.

The command's effects are made explicit: a `World` holds the files, and every call and
every line of output the command makes is appended to a trace of `Event`s.
-/

namespace Terrahash

/-! ## Data model -/

/-- A Go `error` value, identified by the text of its `Error()` method. -/
abbrev GoError := String

/-- Modelled from the spec: the element type of `sourcedMods.Modules` is declared outside
`cmd/init.go`. The spec's ModuleRecord has the fields `Key`, `Version` and `Source`, which
are the three fields `init.go` reads (`v.Key`, `v.Version`, `v.Source`). -/
structure ModuleRecord where
  Key : String
  Version : String
  Source : String
deriving DecidableEq, Repr

/-- Modelled from the spec: the type of `sourcedMods` is declared outside `cmd/init.go`.
The spec's ModuleSet is "a mapping from Key to ModuleRecord", and the test fixture writes
`Modules` as a JSON object, so `Modules` is a Go map with string keys. The map is
represented by its entries in the order a `range` loop visits them; a well-formed value has
pairwise distinct keys (`NodupKeys`). -/
structure SourcedModules where
  Modules : List (String × ModuleRecord)
deriving DecidableEq, Repr

/-- Well-formedness of a Go map given by its entries: no key occurs twice. -/
def NodupKeys (m : List (String × ModuleRecord)) : Prop :=
  (m.map Prod.fst).Nodup

instance (m : List (String × ModuleRecord)) : Decidable (NodupKeys m) := by
  unfold NodupKeys; infer_instance

/-- Two entry lists denote the same Go map: every key is bound to the same record. -/
def SameMapping (a b : List (String × ModuleRecord)) : Prop :=
  ∀ k : String, a.lookup k = b.lookup k

/-! ## The file system -/

/-- The files the command can see: `files` binds a path to its contents, and a path
listed in `unwritable` is one on which `os.WriteFile` fails. -/
structure World where
  files : List (String × String)
  unwritable : List String
deriving DecidableEq, Repr

/-- Contents of the file at `name`, if there is one. -/
def World.read (w : World) (name : String) : Option String :=
  w.files.lookup name

/-- The error of `os.Stat(name)`: `none` (Go's `nil`) exactly when the file exists. -/
def osStat (w : World) (name : String) : Option GoError :=
  match w.read name with
  | some _ => none
  | none => some ("stat " ++ name ++ ": no such file or directory")

/-- The call `os.WriteFile(name, data, perm)`: replaces the contents of `name`, or fails and
leaves the files as they were. -/
def osWriteFile (w : World) (name data : String) : World × Option GoError :=
  if name ∈ w.unwritable then
    (w, some ("open " ++ name ++ ": permission denied"))
  else
    ({ w with files := (name, data) :: w.files.filter (fun p => p.1 != name) }, none)

/-! ## JSON encoding (`encoding/json`) -/

/-- Lower-case hexadecimal digit, as in the `hex` table of `encoding/json`. -/
def hexDigit (n : Nat) : Char :=
  Char.ofNat (if n < 10 then 48 + n else 87 + n)

/-- The backslash character. -/
def backslash : Char := Char.ofNat 92

/-- The double-quote character. -/
def dquote : Char := Char.ofNat 34

/-- One character of a JSON string as `json.Marshal` writes it (HTML escaping on):
the quote and the backslash get a backslash, control characters and `<`, `>`, `&` are
written as `\u00XX` (with the short forms for backspace, form feed, newline, carriage
return and tab), and U+2028 and U+2029 are written as `\u2028` and `\u2029`. -/
def escapeChar (c : Char) : List Char :=
  let n := c.toNat
  if n = 34 ∨ n = 92 then [backslash, c]
  else if n = 8 then [backslash, 'b']
  else if n = 12 then [backslash, 'f']
  else if n = 10 then [backslash, 'n']
  else if n = 13 then [backslash, 'r']
  else if n = 9 then [backslash, 't']
  else if n < 32 ∨ n = 60 ∨ n = 62 ∨ n = 38 then
    [backslash, 'u', '0', '0', hexDigit (n / 16), hexDigit (n % 16)]
  else if n = 8232 ∨ n = 8233 then
    [backslash, 'u', '2', '0', '2', hexDigit (n % 16)]
  else [c]

/-- A Go string as a JSON string literal. -/
def jsonString (s : String) : String :=
  String.mk (dquote :: (s.data.flatMap escapeChar ++ [dquote]))

/-- Line break of `json.Indent`: a newline, the line's leading text and one copy of
`indent` per nesting level. -/
def jsonNewline (pfx indent : String) (depth : Nat) : String :=
  "\n" ++ pfx ++ String.join (List.replicate depth indent)

/-- A non-empty JSON object whose members are already encoded, opened at nesting level
`depth`; an object without members is written `{}`. -/
def jsonObject (pfx indent : String) (depth : Nat) (members : List String) : String :=
  match members with
  | [] => "\x7b\x7d"
  | _ :: _ =>
    "\x7b" ++ jsonNewline pfx indent (depth + 1)
      ++ String.intercalate ("," ++ jsonNewline pfx indent (depth + 1)) members
      ++ jsonNewline pfx indent depth ++ "\x7d"

/-- One member `"name": value` of an indented object. -/
def jsonMember (name value : String) : String :=
  jsonString name ++ ": " ++ value

/-- A module record as a JSON object, fields in declaration order. -/
def encodeRecord (pfx indent : String) (depth : Nat) (m : ModuleRecord) : String :=
  jsonObject pfx indent depth
    [ jsonMember "Key" (jsonString m.Key),
      jsonMember "Version" (jsonString m.Version),
      jsonMember "Source" (jsonString m.Source) ]

/-- Order in which `encoding/json` writes the entries of a map: by key. -/
def keyLE (a b : String × ModuleRecord) : Prop := a.1 ≤ b.1

instance : DecidableRel keyLE := fun a b => by unfold keyLE; infer_instance

/-- The entries of a map sorted by key, as `encoding/json` does before writing them. -/
def sortByKey (m : List (String × ModuleRecord)) : List (String × ModuleRecord) :=
  m.insertionSort keyLE

/-- A map of module records as a JSON object, entries sorted by key. -/
def encodeModules (pfx indent : String) (depth : Nat)
    (m : List (String × ModuleRecord)) : String :=
  jsonObject pfx indent depth
    ((sortByKey m).map fun kv => jsonMember kv.1 (encodeRecord pfx indent (depth + 1) kv.2))

/-- The call `json.MarshalIndent(sourcedMods, pfx, indent)`: the indented document and the
error, which is `nil` for a value made of strings, maps and structs. -/
def jsonMarshalIndent (v : SourcedModules) (pfx indent : String) : String × Option GoError :=
  (jsonObject pfx indent 0 [jsonMember "Modules" (encodeModules pfx indent 1 v.Modules)], none)

/-! ## The command and what it calls -/

/-- One observable step of the command: a line of logging or output, or a call to a helper,
to the JSON encoder or to the operating system. -/
inductive Event where
  | slogDebug (msg : String)
  | slogWarn (msg : String)
  | slogError (msg : String)
  | stdout (text : String)
  | setPath (source : String)
  | terraformInitialized (path : String)
  | osStat (name : String)
  | check (path : String)
  | processModules (path : String) (ignoreLocal : Bool)
  | marshalIndent (v : SourcedModules)
  | osWriteFile (name data : String)
  | osReadFile (name : String)
  | cmdPrintErrln (text : String)
  | cmdPrintln (text : String)
deriving DecidableEq, Repr

/-- The event is a file write. -/
def Event.isWrite : Event → Bool
  | .osWriteFile _ _ => true
  | _ => false

/-- The event is a warning of the logger. -/
def Event.isWarn : Event → Bool
  | .slogWarn _ => true
  | _ => false

/-- The event is a call of `check`. -/
def Event.isCheck : Event → Bool
  | .check _ => true
  | _ => false

/-- The event is a call of `processModules` (the scan). -/
def Event.isScan : Event → Bool
  | .processModules _ _ => true
  | _ => false

/-- The event is the `os.Stat` that looks for the lock file. -/
def Event.isStat : Event → Bool
  | .osStat _ => true
  | _ => false

/-- The event is the call of `terraformInitialized`. -/
def Event.isInitCheck : Event → Bool
  | .terraformInitialized _ => true
  | _ => false

/-- The event writes to the output or error stream of the cobra command. -/
def Event.isCmdStream : Event → Bool
  | .cmdPrintErrln _ => true
  | .cmdPrintln _ => true
  | _ => false

/-- One step `check` takes on its own while it runs. Following the spec, whose check flow is
"Scan + Load + Reconcile" with a read-only Scanner, a step is a call of `processModules`,
a read of a file or a line of output; none of them writes a file. -/
inductive CheckStep where
  | scan (path : String) (ignoreLocal : Bool)
  | load (name : String)
  | print (text : String)
deriving DecidableEq, Repr

/-- The step of `check` as an event of the run. -/
def CheckStep.toEvent : CheckStep → Event
  | .scan path ignoreLocal => Event.processModules path ignoreLocal
  | .load name => Event.osReadFile name
  | .print text => Event.stdout text

/-- Modelled from the spec: `check` is declared outside `cmd/init.go`. The spec's check flow is
"Scan + Load + Reconcile": it runs the scan of the configuration root, reads the snapshot
at its fixed file name, and compares the two in memory. -/
def checkFlow (path modFileName : String) (ignoreLocal : Bool) : List CheckStep :=
  [CheckStep.scan path ignoreLocal, CheckStep.load (path ++ modFileName)]

/-- Modelled from the spec: `setPath`, `terraformInitialized`, `check` and `processModules`,
the package variables `Source`, `IgnoreLocal` and `modFileName` are declared outside
`cmd/init.go`, and `renderTable` stands for the go-pretty table writer. The helpers are taken
as arbitrary functions of the files they read and of their arguments; following the spec
(the Scanner is "read-only; no mutation of the configuration root", the check flow is
"Scan + Load + Reconcile") they return a result and leave the files as they are. The steps
`check` takes while it runs are `checkSteps`, arbitrary as well. -/
structure Env where
  modFileName : String
  Source : String
  IgnoreLocal : Bool
  setPath : World → String → Except GoError String
  terraformInitialized : World → String → String × Bool
  check : World → String → Option GoError
  checkSteps : World → String → List CheckStep
  processModules : World → String → Bool → Except GoError SourcedModules
  renderTable : List String → List (List String) → String

/-- What a run leaves behind: the returned error (`none` is Go's `nil`), the files, and the
trace of steps in the order they happened. -/
structure Outcome where
  err : Option GoError
  world : World
  trace : List Event
deriving DecidableEq, Repr

/-- The line `fmt.Printf("\n\nSummary: %v modules added to mod lock file.\n\n", n)` prints. -/
def summaryLine (n : Nat) : String :=
  "\n\nSummary: " ++ toString n ++ " modules added to mod lock file.\n\n"

/-- Type of the JSON encoder handed to the command. -/
abbrev Marshal := SourcedModules → String → String → String × Option GoError

/-- Type of the file writer handed to the command: the files after the call and the error. -/
abbrev WriteFile := World → String → String → World × Option GoError

/-- The function `initCmd.RunE` of `cmd/init.go`, with the JSON encoder and the file writer as
parameters so that every outcome of the encoding and of the write can be considered. -/
def RunEWith (marshal : Marshal) (write : WriteFile) (env : Env) (w : World) : Outcome :=
  let t0 := [Event.slogDebug "init command called", Event.setPath env.Source]
  match env.setPath w env.Source with
  | .error err => { err := some err, world := w, trace := t0 }
  | .ok path =>
    let t1 := t0 ++ [Event.slogDebug "check to see if terraform has been initialized",
                     Event.terraformInitialized path]
    let r := env.terraformInitialized w path
    if !r.2 then
      { err := none, world := w,
        trace := t1 ++ [Event.slogWarn r.1, Event.slogWarn "has terraform init been run?"] }
    else
      let t2 := t1 ++ [Event.slogDebug ("check to see if the " ++ env.modFileName ++ "file exists"),
                       Event.osStat (path ++ env.modFileName)]
      match osStat w (path ++ env.modFileName) with
      | none =>
        let t3 := t2 ++ [Event.stdout "Existing mod lock file found\n", Event.check path]
                    ++ (env.checkSteps w path).map CheckStep.toEvent
        match env.check w path with
        | some checkErr =>
          { err := some "run terrhash upgrade to update the mod lock file", world := w,
            trace := t3 ++ [Event.slogError "Changes detected between configuration and lock file",
                            Event.slogError checkErr] }
        | none =>
          { err := none, world := w,
            trace := t3 ++ [Event.stdout "No changes to mod lock file required\n"] }
      | some _ =>
        let t3 := t2 ++ [Event.slogDebug "get the modules used by the configuration",
                         Event.processModules path env.IgnoreLocal]
        match env.processModules w path env.IgnoreLocal with
        | .error err =>
          { err := some ("error processing modules " ++ err), world := w, trace := t3 }
        | .ok sourcedMods =>
          if sourcedMods.Modules.length = 0 then
            { err := none, world := w,
              trace := t3 ++ [Event.slogWarn "no external modules found, exiting"] }
          else
            let rows := sourcedMods.Modules.map fun kv => [kv.2.Key, kv.2.Version, kv.2.Source]
            let t4 := t3 ++ [Event.stdout "The following modules are being added to the mod lock file:\n",
                             Event.stdout (env.renderTable ["Name", "Version", "Source"] rows ++ "\n"),
                             Event.marshalIndent sourcedMods]
            let bytes := (marshal sourcedMods "" "  ").1
            let t5 := t4 ++ [Event.slogDebug "writing modules out to file",
                             Event.osWriteFile (path ++ env.modFileName) bytes]
            let w1 := (write w (path ++ env.modFileName) bytes).1
            { err := none, world := w1,
              trace := t5 ++ [Event.stdout (summaryLine sourcedMods.Modules.length)] }

/-- The function `initCmd.RunE` as it runs: the encoder is `json.MarshalIndent` and the
writer is `os.WriteFile`. -/
def RunE (env : Env) (w : World) : Outcome :=
  RunEWith jsonMarshalIndent osWriteFile env w

/-- Settings of the cobra root command that decide what is printed when `RunE` fails
(`rootCmd` is declared outside `cmd/init.go`). -/
structure CobraCfg where
  silenceErrors : Bool
  silenceUsage : Bool
  usage : String

/-- The call `rootCmd.Execute()` for the `init` subcommand: cobra runs `RunE` and, when it
returns an error, prints the error and the usage text to the command's stream unless
silenced; with a `nil` result it prints nothing. -/
def Execute (cfg : CobraCfg) (env : Env) (w : World) : Outcome :=
  let o := RunE env w
  match o.err with
  | none => o
  | some e =>
    { o with trace := o.trace
        ++ (if cfg.silenceErrors then [] else [Event.cmdPrintErrln ("Error: " ++ e)])
        ++ (if cfg.silenceUsage then [] else [Event.cmdPrintln cfg.usage]) }

/-- The configuration `env` with a scan (`processModules`) that returns `r`. -/
def Env.withScan (env : Env) (r : Except GoError SourcedModules) : Env :=
  { env with processModules := fun _ _ _ => r }

/-! ## Concrete configuration roots -/

/-- A configuration whose helpers answer the same whatever the files hold; the lock file is
named `.terrahash.lock.json`, `check` takes the steps of the spec's check flow, and the
table is rendered one row per line. -/
def exampleEnv (p : Except GoError String) (i : String × Bool) (c : Option GoError)
    (s : Except GoError SourcedModules) : Env :=
  { modFileName := ".terrahash.lock.json"
    Source := "cfg"
    IgnoreLocal := true
    setPath := fun _ _ => p
    terraformInitialized := fun _ _ => i
    check := fun _ _ => c
    checkSteps := fun _ path => checkFlow path ".terrahash.lock.json" true
    processModules := fun _ _ _ => s
    renderTable := fun header rows =>
      String.intercalate "\n" ((header :: rows).map (String.intercalate " | ")) }

/-- The module set with the single record `vpc`, version `1.2.0`, from `registry/vpc`. -/
def vpcSet : SourcedModules :=
  { Modules := [("vpc", { Key := "vpc", Version := "1.2.0", Source := "registry/vpc" })] }

/-- Two modules, entered with `vpc` first. -/
def vpcThenEks : SourcedModules :=
  { Modules := [("vpc", { Key := "vpc", Version := "1.2.0", Source := "registry/vpc" }),
                ("eks", { Key := "eks", Version := "20.0.0", Source := "registry/eks" })] }

/-- The same two modules, entered with `eks` first. -/
def eksThenVpc : SourcedModules :=
  { Modules := [("eks", { Key := "eks", Version := "20.0.0", Source := "registry/eks" }),
                ("vpc", { Key := "vpc", Version := "1.2.0", Source := "registry/vpc" })] }

/-- A root that holds a Terraform file and no lock file. -/
def freshRoot : World :=
  { files := [("/cfg/main.tf", "locals \x7b testing = \"test\" \x7d")], unwritable := [] }

/-- A root that already holds a lock file. -/
def lockedRoot : World :=
  { files := [("/cfg/.terrahash.lock.json", "\x7b\"Modules\": \x7b\x7d\x7d")], unwritable := [] }

/-- A root without a lock file in which the lock file cannot be created. -/
def readOnlyRoot : World :=
  { files := [("/cfg/main.tf", "locals \x7b testing = \"test\" \x7d")],
    unwritable := ["/cfg/.terrahash.lock.json"] }

/-- An encoder that fails: it returns no bytes and an error. -/
def failingMarshal : Marshal :=
  fun _ _ _ => ("", some "json: unsupported value")

/-! ## Lemmas on maps, sorting and files -/

instance : IsTotal (String × ModuleRecord) keyLE := ⟨fun a b => le_total a.1 b.1⟩

instance : IsTrans (String × ModuleRecord) keyLE := ⟨fun _ _ _ h₁ h₂ => le_trans h₁ h₂⟩

theorem lookup_eq_some_iff_mem {m : List (String × ModuleRecord)} (hm : NodupKeys m)
    (k : String) (v : ModuleRecord) : m.lookup k = some v ↔ (k, v) ∈ m := by
  induction m with
  | nil => simp
  | cons p t ih =>
    obtain ⟨k', v'⟩ := p
    have hnd : k' ∉ t.map Prod.fst ∧ NodupKeys t := by
      simpa [NodupKeys] using hm
    by_cases hk : k = k'
    · subst hk
      have hnot : (k, v) ∉ t := fun hmem => hnd.1 (List.mem_map.2 ⟨(k, v), hmem, rfl⟩)
      simp [List.lookup, hnot, eq_comm]
    · have hbeq : (k == k') = false := by simpa using hk
      simp [List.lookup, hbeq, hk, ih hnd.2]

theorem perm_of_sameMapping {a b : List (String × ModuleRecord)} (ha : NodupKeys a)
    (hb : NodupKeys b) (h : SameMapping a b) : a.Perm b := by
  have hna : a.Nodup := List.Nodup.of_map Prod.fst ha
  have hnb : b.Nodup := List.Nodup.of_map Prod.fst hb
  refine (List.perm_ext_iff_of_nodup hna hnb).2 ?_
  rintro ⟨k, v⟩
  rw [← lookup_eq_some_iff_mem ha, ← lookup_eq_some_iff_mem hb, h k]

theorem eq_of_perm_of_sorted_keys : ∀ {l₁ l₂ : List (String × ModuleRecord)},
    l₁.Perm l₂ → l₁.Sorted keyLE → l₂.Sorted keyLE → NodupKeys l₂ → l₁ = l₂
  | [], l₂, hp, _, _, _ => hp.nil_eq
  | x :: t, [], hp, _, _, _ => absurd hp.symm.nil_eq (by simp)
  | x :: t, y :: t', hp, hs₁, hs₂, hnd => by
    have hx : x ∈ y :: t' := hp.subset (List.mem_cons_self _ _)
    have hy : y ∈ x :: t := hp.symm.subset (List.mem_cons_self _ _)
    have hxy : x.1 ≤ y.1 := by
      rcases List.mem_cons.1 hy with h | h
      · rw [h]
      · exact List.rel_of_sorted_cons hs₁ y h
    have hyx : y.1 ≤ x.1 := by
      rcases List.mem_cons.1 hx with h | h
      · rw [h]
      · exact List.rel_of_sorted_cons hs₂ x h
    have hkey : x.1 = y.1 := le_antisymm hxy hyx
    have hnd' : y.1 ∉ t'.map Prod.fst ∧ NodupKeys t' := by
      simpa [NodupKeys] using hnd
    have hxeq : x = y := by
      rcases List.mem_cons.1 hx with h | h
      · exact h
      · exact absurd (List.mem_map.2 ⟨x, h, hkey⟩) hnd'.1
    subst hxeq
    rw [eq_of_perm_of_sorted_keys ((List.perm_cons x).1 hp) hs₁.of_cons hs₂.of_cons hnd'.2]

theorem sortByKey_eq_of_sameMapping {a b : List (String × ModuleRecord)} (ha : NodupKeys a)
    (hb : NodupKeys b) (h : SameMapping a b) : sortByKey a = sortByKey b := by
  have hp : a.Perm b := perm_of_sameMapping ha hb h
  have hpa : (sortByKey a).Perm a := List.perm_insertionSort keyLE a
  have hpb : (sortByKey b).Perm b := List.perm_insertionSort keyLE b
  have hnd : NodupKeys (sortByKey b) := by
    unfold NodupKeys
    exact ((hpb.map Prod.fst).nodup_iff).2 hb
  exact eq_of_perm_of_sorted_keys (hpa.trans (hp.trans hpb.symm))
    (List.sorted_insertionSort keyLE a) (List.sorted_insertionSort keyLE b) hnd

theorem sortByKey_keys_sorted (m : List (String × ModuleRecord)) :
    ((sortByKey m).map Prod.fst).Sorted (· ≤ ·) := by
  have h : (sortByKey m).Sorted keyLE := List.sorted_insertionSort keyLE m
  exact List.pairwise_map.2 h

theorem jsonMarshalIndent_eq_of_sameMapping {a b : SourcedModules} (ha : NodupKeys a.Modules)
    (hb : NodupKeys b.Modules) (h : SameMapping a.Modules b.Modules) (pfx indent : String) :
    jsonMarshalIndent a pfx indent = jsonMarshalIndent b pfx indent := by
  simp only [jsonMarshalIndent, encodeModules, sortByKey_eq_of_sameMapping ha hb h]

theorem read_osWriteFile_same (w : World) (name data : String) (h : name ∉ w.unwritable) :
    (osWriteFile w name data).1.read name = some data := by
  simp [osWriteFile, h, World.read, List.lookup]

theorem lookup_filter_ne (l : List (String × String)) (name q : String) (hq : q ≠ name) :
    (l.filter (fun p => p.1 != name)).lookup q = l.lookup q := by
  induction l with
  | nil => rfl
  | cons p t ih =>
    obtain ⟨k, v⟩ := p
    by_cases hk : k = name
    · subst hk
      have hqk : (q == k) = false := by simpa using hq
      rw [List.filter_cons_of_neg (by simp), ih]
      simp [List.lookup, hqk]
    · rw [List.filter_cons_of_pos (by simpa using hk)]
      by_cases hqk : q = k
      · subst hqk
        simp [List.lookup]
      · have hb : (q == k) = false := by simpa using hqk
        simp [List.lookup, hb, ih]

theorem read_osWriteFile_other (w : World) (name data q : String) (hq : q ≠ name) :
    (osWriteFile w name data).1.read q = w.read q := by
  unfold osWriteFile
  split
  · rfl
  · have : (q == name) = false := by simpa using hq
    simp [World.read, List.lookup, this, lookup_filter_ne _ _ _ hq]

theorem osStat_eq_none_of_read {w : World} {name content : String}
    (h : w.read name = some content) : osStat w name = none := by
  simp [osStat, h]

theorem osStat_eq_some_of_read {w : World} {name : String} (h : w.read name = none) :
    osStat w name = some ("stat " ++ name ++ ": no such file or directory") := by
  simp [osStat, h]

theorem CheckStep.toEvent_isWrite (s : CheckStep) : s.toEvent.isWrite = false := by
  cases s <;> rfl

theorem filter_isWrite_checkSteps (steps : List CheckStep) :
    (steps.map CheckStep.toEvent).filter Event.isWrite = [] := by
  induction steps with
  | nil => rfl
  | cons s t ih => simp [List.filter, CheckStep.toEvent_isWrite, ih]

/-! ## The branches of `RunE` -/

theorem RunEWith_setPath_error (marshal : Marshal) (write : WriteFile) (env : Env) (w : World) (e : GoError)
    (hp : env.setPath w env.Source = .error e) :
    RunEWith marshal write env w =
      { err := some e, world := w,
        trace := [Event.slogDebug "init command called", Event.setPath env.Source] } := by
  simp only [RunEWith, hp]

theorem RunEWith_not_initialized (marshal : Marshal) (write : WriteFile) (env : Env) (w : World) (path : String)
    (hp : env.setPath w env.Source = .ok path)
    (hi : (env.terraformInitialized w path).2 = false) :
    RunEWith marshal write env w =
      { err := none, world := w,
        trace := [Event.slogDebug "init command called", Event.setPath env.Source,
                  Event.slogDebug "check to see if terraform has been initialized",
                  Event.terraformInitialized path,
                  Event.slogWarn (env.terraformInitialized w path).1,
                  Event.slogWarn "has terraform init been run?"] } := by
  simp [RunEWith, hp, hi]

theorem RunEWith_lock_exists (marshal : Marshal) (write : WriteFile) (env : Env) (w : World) (path content : String)
    (hp : env.setPath w env.Source = .ok path)
    (hi : (env.terraformInitialized w path).2 = true)
    (hl : w.read (path ++ env.modFileName) = some content) :
    RunEWith marshal write env w =
      { err := (env.check w path).map fun _ => "run terrhash upgrade to update the mod lock file",
        world := w,
        trace := [Event.slogDebug "init command called", Event.setPath env.Source,
                  Event.slogDebug "check to see if terraform has been initialized",
                  Event.terraformInitialized path,
                  Event.slogDebug ("check to see if the " ++ env.modFileName ++ "file exists"),
                  Event.osStat (path ++ env.modFileName),
                  Event.stdout "Existing mod lock file found\n", Event.check path]
          ++ (env.checkSteps w path).map CheckStep.toEvent
          ++ (match env.check w path with
              | some checkErr =>
                [Event.slogError "Changes detected between configuration and lock file",
                 Event.slogError checkErr]
              | none => [Event.stdout "No changes to mod lock file required\n"]) } := by
  simp only [RunEWith, hp, hi, osStat_eq_none_of_read hl]
  cases env.check w path <;> simp

theorem RunEWith_scan_error (marshal : Marshal) (write : WriteFile) (env : Env) (w : World) (path : String)
    (e : GoError)
    (hp : env.setPath w env.Source = .ok path)
    (hi : (env.terraformInitialized w path).2 = true)
    (hl : w.read (path ++ env.modFileName) = none)
    (hs : env.processModules w path env.IgnoreLocal = .error e) :
    RunEWith marshal write env w =
      { err := some ("error processing modules " ++ e), world := w,
        trace := [Event.slogDebug "init command called", Event.setPath env.Source,
                  Event.slogDebug "check to see if terraform has been initialized",
                  Event.terraformInitialized path,
                  Event.slogDebug ("check to see if the " ++ env.modFileName ++ "file exists"),
                  Event.osStat (path ++ env.modFileName),
                  Event.slogDebug "get the modules used by the configuration",
                  Event.processModules path env.IgnoreLocal] } := by
  simp [RunEWith, hp, hi, osStat_eq_some_of_read hl, hs]

theorem RunEWith_scan_empty (marshal : Marshal) (write : WriteFile) (env : Env) (w : World) (path : String)
    (S : SourcedModules)
    (hp : env.setPath w env.Source = .ok path)
    (hi : (env.terraformInitialized w path).2 = true)
    (hl : w.read (path ++ env.modFileName) = none)
    (hs : env.processModules w path env.IgnoreLocal = .ok S)
    (hS : S.Modules.length = 0) :
    RunEWith marshal write env w =
      { err := none, world := w,
        trace := [Event.slogDebug "init command called", Event.setPath env.Source,
                  Event.slogDebug "check to see if terraform has been initialized",
                  Event.terraformInitialized path,
                  Event.slogDebug ("check to see if the " ++ env.modFileName ++ "file exists"),
                  Event.osStat (path ++ env.modFileName),
                  Event.slogDebug "get the modules used by the configuration",
                  Event.processModules path env.IgnoreLocal,
                  Event.slogWarn "no external modules found, exiting"] } := by
  simp [RunEWith, hp, hi, osStat_eq_some_of_read hl, hs, hS]

theorem RunEWith_persist (marshal : Marshal) (write : WriteFile) (env : Env) (w : World) (path : String)
    (S : SourcedModules)
    (hp : env.setPath w env.Source = .ok path)
    (hi : (env.terraformInitialized w path).2 = true)
    (hl : w.read (path ++ env.modFileName) = none)
    (hs : env.processModules w path env.IgnoreLocal = .ok S)
    (hS : S.Modules.length ≠ 0) :
    RunEWith marshal write env w =
      { err := none,
        world := (write w (path ++ env.modFileName) (marshal S "" "  ").1).1,
        trace := [Event.slogDebug "init command called", Event.setPath env.Source,
                  Event.slogDebug "check to see if terraform has been initialized",
                  Event.terraformInitialized path,
                  Event.slogDebug ("check to see if the " ++ env.modFileName ++ "file exists"),
                  Event.osStat (path ++ env.modFileName),
                  Event.slogDebug "get the modules used by the configuration",
                  Event.processModules path env.IgnoreLocal,
                  Event.stdout "The following modules are being added to the mod lock file:\n",
                  Event.stdout (env.renderTable ["Name", "Version", "Source"]
                    (S.Modules.map fun kv => [kv.2.Key, kv.2.Version, kv.2.Source]) ++ "\n"),
                  Event.marshalIndent S,
                  Event.slogDebug "writing modules out to file",
                  Event.osWriteFile (path ++ env.modFileName) (marshal S "" "  ").1,
                  Event.stdout (summaryLine S.Modules.length)] } := by
  simp [RunEWith, hp, hi, osStat_eq_some_of_read hl, hs, hS]

theorem filter_isWrite_persist (marshal : Marshal) (write : WriteFile) (env : Env) (w : World) (path : String)
    (S : SourcedModules)
    (hp : env.setPath w env.Source = .ok path)
    (hi : (env.terraformInitialized w path).2 = true)
    (hl : w.read (path ++ env.modFileName) = none)
    (hs : env.processModules w path env.IgnoreLocal = .ok S)
    (hS : S.Modules.length ≠ 0) :
    (RunEWith marshal write env w).trace.filter Event.isWrite =
      [Event.osWriteFile (path ++ env.modFileName) (marshal S "" "  ").1] := by
  rw [RunEWith_persist marshal write env w path S hp hi hl hs hS]
  simp [List.filter, Event.isWrite]

/-! ## The init flow -/

/-- C1, as stated, fails: at a root whose lock file exists (path resolved, Terraform
initialized) the run of `init` contains a call of `processModules`, the scan that the check
flow of the spec performs. -/
theorem init_existing_lock_scans_in_check :
    (exampleEnv (.ok "/cfg/") ("", true) none (.ok vpcSet)).setPath lockedRoot
        (exampleEnv (.ok "/cfg/") ("", true) none (.ok vpcSet)).Source = .ok "/cfg/" ∧
    ((exampleEnv (.ok "/cfg/") ("", true) none (.ok vpcSet)).terraformInitialized lockedRoot
        "/cfg/").2 = true ∧
    lockedRoot.read ("/cfg/" ++ ".terrahash.lock.json") = some "\x7b\"Modules\": \x7b\x7d\x7d" ∧
    Event.processModules "/cfg/" true
      ∈ (RunE (exampleEnv (.ok "/cfg/") ("", true) none (.ok vpcSet)) lockedRoot).trace ∧
    ¬ (∀ e ∈ (RunE (exampleEnv (.ok "/cfg/") ("", true) none (.ok vpcSet)) lockedRoot).trace,
        e.isScan = false) :=
  ⟨rfl, rfl, by decide, by decide, by decide⟩

/-- C1, amended: when the lock file already exists (path resolved, Terraform initialized),
`init` leaves every file as it was, the lock file still holds the contents it had, and the run
contains no file write, whatever `check` returns; `init` itself does not call
`processModules`: the calls of `processModules` in the run are exactly those `check` makes. -/
theorem init_existing_lock_untouched (env : Env) (w : World) (path content : String)
    (hp : env.setPath w env.Source = .ok path)
    (hi : (env.terraformInitialized w path).2 = true)
    (hl : w.read (path ++ env.modFileName) = some content) :
    (RunE env w).world = w ∧
    (RunE env w).world.read (path ++ env.modFileName) = some content ∧
    (∀ e ∈ (RunE env w).trace, e.isWrite = false) ∧
    (RunE env w).trace.filter Event.isWrite = [] ∧
    (RunE env w).trace.filter Event.isScan
      = ((env.checkSteps w path).map CheckStep.toEvent).filter Event.isScan := by
  rw [RunE, RunEWith_lock_exists jsonMarshalIndent osWriteFile env w path content hp hi hl]
  have hnw : ([Event.slogDebug "init command called", Event.setPath env.Source,
        Event.slogDebug "check to see if terraform has been initialized",
        Event.terraformInitialized path,
        Event.slogDebug ("check to see if the " ++ env.modFileName ++ "file exists"),
        Event.osStat (path ++ env.modFileName),
        Event.stdout "Existing mod lock file found\n", Event.check path]
      ++ (env.checkSteps w path).map CheckStep.toEvent
      ++ (match env.check w path with
          | some checkErr =>
            [Event.slogError "Changes detected between configuration and lock file",
             Event.slogError checkErr]
          | none => [Event.stdout "No changes to mod lock file required\n"])).filter
        Event.isWrite = [] := by
    rw [List.filter_append, List.filter_append, filter_isWrite_checkSteps]
    cases env.check w path <;> simp [List.filter, Event.isWrite]
  refine ⟨rfl, hl, ?_, hnw, ?_⟩
  · intro e he
    by_contra hne
    have hmem : e ∈ ([Event.slogDebug "init command called", Event.setPath env.Source,
        Event.slogDebug "check to see if terraform has been initialized",
        Event.terraformInitialized path,
        Event.slogDebug ("check to see if the " ++ env.modFileName ++ "file exists"),
        Event.osStat (path ++ env.modFileName),
        Event.stdout "Existing mod lock file found\n", Event.check path]
      ++ (env.checkSteps w path).map CheckStep.toEvent
      ++ (match env.check w path with
          | some checkErr =>
            [Event.slogError "Changes detected between configuration and lock file",
             Event.slogError checkErr]
          | none => [Event.stdout "No changes to mod lock file required\n"])).filter
        Event.isWrite := List.mem_filter.2 ⟨he, by simpa using hne⟩
    rw [hnw] at hmem
    exact absurd hmem (List.not_mem_nil e)
  · show List.filter Event.isScan (_ ++ _ ++ _) = _
    rw [List.filter_append, List.filter_append]
    cases env.check w path <;> simp [List.filter, Event.isScan]

/-- C1 amended, at a root whose lock file exists and where `check` reports drift: the files
are as before, no write occurs, and the one scan of the run is the scan of the check flow. -/
theorem init_existing_lock_untouched_witness :
    (exampleEnv (.ok "/cfg/") ("", true) (some "drift") (.ok vpcSet)).setPath lockedRoot
        (exampleEnv (.ok "/cfg/") ("", true) (some "drift") (.ok vpcSet)).Source = .ok "/cfg/" ∧
    lockedRoot.read ("/cfg/" ++ ".terrahash.lock.json") = some "\x7b\"Modules\": \x7b\x7d\x7d" ∧
    (RunE (exampleEnv (.ok "/cfg/") ("", true) (some "drift") (.ok vpcSet)) lockedRoot).world
      = lockedRoot ∧
    (RunE (exampleEnv (.ok "/cfg/") ("", true) (some "drift") (.ok vpcSet)) lockedRoot).world.read
      ("/cfg/" ++ ".terrahash.lock.json") = some "\x7b\"Modules\": \x7b\x7d\x7d" ∧
    (∀ e ∈ (RunE (exampleEnv (.ok "/cfg/") ("", true) (some "drift") (.ok vpcSet))
        lockedRoot).trace, e.isWrite = false) ∧
    (RunE (exampleEnv (.ok "/cfg/") ("", true) (some "drift") (.ok vpcSet))
        lockedRoot).trace.filter Event.isWrite = [] ∧
    (RunE (exampleEnv (.ok "/cfg/") ("", true) (some "drift") (.ok vpcSet))
        lockedRoot).trace.filter Event.isScan
      = ((checkFlow "/cfg/" ".terrahash.lock.json" true).map CheckStep.toEvent).filter
          Event.isScan :=
  ⟨rfl, by decide,
    init_existing_lock_untouched (exampleEnv (.ok "/cfg/") ("", true) (some "drift") (.ok vpcSet))
      lockedRoot "/cfg/" "\x7b\"Modules\": \x7b\x7d\x7d" rfl rfl (by decide)⟩

/-- C2: when the lock file already exists (path resolved, Terraform initialized), `init`
returns an error exactly when `check` does; the error is then the fixed text pointing to the
upgrade command, whatever the text of the error of `check`, and when `check` returns nil
so does `init`. -/
theorem init_existing_lock_error_iff_check (env : Env) (w : World) (path content : String)
    (hp : env.setPath w env.Source = .ok path)
    (hi : (env.terraformInitialized w path).2 = true)
    (hl : w.read (path ++ env.modFileName) = some content) :
    ((RunE env w).err ≠ none ↔ env.check w path ≠ none) ∧
    (∀ checkErr, env.check w path = some checkErr →
      (RunE env w).err = some "run terrhash upgrade to update the mod lock file") ∧
    (env.check w path = none → (RunE env w).err = none) := by
  rw [RunE, RunEWith_lock_exists jsonMarshalIndent osWriteFile env w path content hp hi hl]
  cases env.check w path <;> simp

/-- C2, at a root whose lock file exists and where `check` fails with `drift`. -/
theorem init_existing_lock_error_iff_check_witness :
    lockedRoot.read ("/cfg/" ++ ".terrahash.lock.json") = some "\x7b\"Modules\": \x7b\x7d\x7d" ∧
    (RunE (exampleEnv (.ok "/cfg/") ("", true) (some "drift") (.ok vpcSet)) lockedRoot).err
      = some "run terrhash upgrade to update the mod lock file" :=
  ⟨by decide,
    (init_existing_lock_error_iff_check
      (exampleEnv (.ok "/cfg/") ("", true) (some "drift") (.ok vpcSet))
      lockedRoot "/cfg/" "\x7b\"Modules\": \x7b\x7d\x7d" rfl rfl (by decide)).2.1 "drift" rfl⟩

/-- C3: with no lock file (path resolved, Terraform initialized) and a scan that succeeds
with no modules, `init` returns nil, leaves every file as it was, so that there is still no
lock file, and the run contains no file write. -/
theorem init_empty_scan_writes_nothing (env : Env) (w : World) (path : String)
    (S : SourcedModules)
    (hp : env.setPath w env.Source = .ok path)
    (hi : (env.terraformInitialized w path).2 = true)
    (hl : w.read (path ++ env.modFileName) = none)
    (hs : env.processModules w path env.IgnoreLocal = .ok S)
    (hS : S.Modules = []) :
    (RunE env w).err = none ∧
    (RunE env w).world = w ∧
    (RunE env w).world.read (path ++ env.modFileName) = none ∧
    osStat (RunE env w).world (path ++ env.modFileName) ≠ none ∧
    (∀ e ∈ (RunE env w).trace, e.isWrite = false) := by
  rw [RunE, RunEWith_scan_empty jsonMarshalIndent osWriteFile env w path S hp hi hl hs (by simp [hS])]
  refine ⟨rfl, rfl, hl, ?_, ?_⟩
  · simp [osStat_eq_some_of_read hl]
  · simp [Event.isWrite]

/-- C3, at a root with a Terraform file that uses no module. -/
theorem init_empty_scan_writes_nothing_witness :
    freshRoot.read ("/cfg/" ++ ".terrahash.lock.json") = none ∧
    (RunE (exampleEnv (.ok "/cfg/") ("", true) none (.ok ⟨[]⟩)) freshRoot).err = none ∧
    (RunE (exampleEnv (.ok "/cfg/") ("", true) none (.ok ⟨[]⟩)) freshRoot).world = freshRoot :=
  ⟨by decide,
    (init_empty_scan_writes_nothing (exampleEnv (.ok "/cfg/") ("", true) none (.ok ⟨[]⟩))
      freshRoot "/cfg/" ⟨[]⟩ rfl rfl (by decide) rfl rfl).1,
    (init_empty_scan_writes_nothing (exampleEnv (.ok "/cfg/") ("", true) none (.ok ⟨[]⟩))
      freshRoot "/cfg/" ⟨[]⟩ rfl rfl (by decide) rfl rfl).2.1⟩

/-- C4: with no lock file (path resolved, Terraform initialized) and a scan that succeeds
with a non-empty set `S`, `init` returns nil, makes exactly one file write, which writes
the two-space-indented JSON encoding of `S` to `path ++ modFileName`, so that the lock file
holds exactly that document (where the file system takes the write) and the other files are
as before, and it prints the summary line with the number of records of `S`. -/
theorem init_persists_scanned_modules (env : Env) (w : World) (path : String)
    (S : SourcedModules)
    (hp : env.setPath w env.Source = .ok path)
    (hi : (env.terraformInitialized w path).2 = true)
    (hl : w.read (path ++ env.modFileName) = none)
    (hs : env.processModules w path env.IgnoreLocal = .ok S)
    (hS : S.Modules ≠ []) :
    (RunE env w).err = none ∧
    (RunE env w).trace.filter Event.isWrite =
      [Event.osWriteFile (path ++ env.modFileName) (jsonMarshalIndent S "" "  ").1] ∧
    (RunE env w).world =
      (osWriteFile w (path ++ env.modFileName) (jsonMarshalIndent S "" "  ").1).1 ∧
    (path ++ env.modFileName ∉ w.unwritable →
      (RunE env w).world.read (path ++ env.modFileName)
        = some (jsonMarshalIndent S "" "  ").1) ∧
    (∀ q, q ≠ path ++ env.modFileName → (RunE env w).world.read q = w.read q) ∧
    Event.stdout (summaryLine S.Modules.length) ∈ (RunE env w).trace := by
  have hlen : S.Modules.length ≠ 0 := by simpa using hS
  refine ⟨?_, filter_isWrite_persist jsonMarshalIndent osWriteFile env w path S hp hi hl hs hlen, ?_⟩
  · rw [RunE, RunEWith_persist jsonMarshalIndent osWriteFile env w path S hp hi hl hs hlen]
  · rw [RunE, RunEWith_persist jsonMarshalIndent osWriteFile env w path S hp hi hl hs hlen]
    refine ⟨rfl, fun hw => read_osWriteFile_same w _ _ hw,
      fun q hq => read_osWriteFile_other w _ _ q hq, ?_⟩
    simp

/-- C4, for the single record `vpc` / `1.2.0` / `registry/vpc`: the lock file holds the
indented document with that record and the summary reports 1 module. -/
theorem init_persists_scanned_modules_witness :
    freshRoot.read ("/cfg/" ++ ".terrahash.lock.json") = none ∧
    vpcSet.Modules ≠ [] ∧
    (RunE (exampleEnv (.ok "/cfg/") ("", true) none (.ok vpcSet)) freshRoot).err = none ∧
    (RunE (exampleEnv (.ok "/cfg/") ("", true) none (.ok vpcSet)) freshRoot).world.read
      "/cfg/.terrahash.lock.json"
      = some ("\x7b\n  \"Modules\": \x7b\n    \"vpc\": \x7b\n      \"Key\": \"vpc\",\n"
          ++ "      \"Version\": \"1.2.0\",\n      \"Source\": \"registry/vpc\"\n"
          ++ "    \x7d\n  \x7d\n\x7d") ∧
    Event.stdout "\n\nSummary: 1 modules added to mod lock file.\n\n"
      ∈ (RunE (exampleEnv (.ok "/cfg/") ("", true) none (.ok vpcSet)) freshRoot).trace := by
  have h := init_persists_scanned_modules
    (exampleEnv (.ok "/cfg/") ("", true) none (.ok vpcSet)) freshRoot "/cfg/" vpcSet
    rfl rfl (by decide) rfl (by decide)
  have hb : (jsonMarshalIndent vpcSet "" "  ").1
      = "\x7b\n  \"Modules\": \x7b\n    \"vpc\": \x7b\n      \"Key\": \"vpc\",\n"
          ++ "      \"Version\": \"1.2.0\",\n      \"Source\": \"registry/vpc\"\n"
          ++ "    \x7d\n  \x7d\n\x7d" := by decide
  have hc : summaryLine vpcSet.Modules.length
      = "\n\nSummary: 1 modules added to mod lock file.\n\n" := by decide
  rw [hb, hc] at h
  exact ⟨by decide, by decide, h.1, h.2.2.2.1 (by decide), h.2.2.2.2.2⟩

/-- C5, as stated, fails: at a root whose Terraform metadata is missing (the helper
`terraformInitialized` reports false) `init` returns nil, not an error. -/
theorem init_not_initialized_returns_nil :
    ((exampleEnv (.ok "/cfg/") ("modules.json not found", false) none (.ok vpcSet)
        ).terraformInitialized freshRoot "/cfg/").2 = false ∧
    (RunE (exampleEnv (.ok "/cfg/") ("modules.json not found", false) none (.ok vpcSet))
      freshRoot).err = none := by
  decide

/-- C5, amended: at a root whose Terraform metadata is missing (`terraformInitialized`
reports false, path resolved) `init` logs two warnings, the helper's message and
"has terraform init been run?", returns nil, and performs no file write: every file is as
it was. -/
theorem init_not_initialized_warns_without_writes (env : Env) (w : World) (path : String)
    (hp : env.setPath w env.Source = .ok path)
    (hi : (env.terraformInitialized w path).2 = false) :
    (RunE env w).err = none ∧
    (RunE env w).trace.filter Event.isWarn =
      [Event.slogWarn (env.terraformInitialized w path).1,
       Event.slogWarn "has terraform init been run?"] ∧
    (RunE env w).trace.filter Event.isWrite = [] ∧
    (RunE env w).world = w := by
  rw [RunE, RunEWith_not_initialized jsonMarshalIndent osWriteFile env w path hp hi]
  simp [List.filter, Event.isWrite, Event.isWarn]

/-- C5 amended, at a root that has not been through `terraform init`. -/
theorem init_not_initialized_warns_without_writes_witness :
    (RunE (exampleEnv (.ok "/cfg/") ("modules.json not found", false) none (.ok vpcSet))
      freshRoot).err = none ∧
    (RunE (exampleEnv (.ok "/cfg/") ("modules.json not found", false) none (.ok vpcSet))
      freshRoot).trace.filter Event.isWarn =
      [Event.slogWarn "modules.json not found",
       Event.slogWarn "has terraform init been run?"] ∧
    (RunE (exampleEnv (.ok "/cfg/") ("modules.json not found", false) none (.ok vpcSet))
      freshRoot).trace.filter Event.isWrite = [] ∧
    (RunE (exampleEnv (.ok "/cfg/") ("modules.json not found", false) none (.ok vpcSet))
      freshRoot).world = freshRoot :=
  init_not_initialized_warns_without_writes
    (exampleEnv (.ok "/cfg/") ("modules.json not found", false) none (.ok vpcSet))
    freshRoot "/cfg/" rfl rfl

/-- C6: when `terraformInitialized` reports false (path resolved), running the command
returns nil and prints nothing to the command's output and error stream; the run logs the
warning, has no `os.Stat` of the lock file, no call of `check` or `processModules` and no
file write, and leaves every file as it was, whether or not a lock file exists. -/
theorem init_not_initialized_only_warns (cfg : CobraCfg) (env : Env) (w : World)
    (path : String)
    (hp : env.setPath w env.Source = .ok path)
    (hi : (env.terraformInitialized w path).2 = false) :
    (Execute cfg env w).err = none ∧
    (∀ e ∈ (Execute cfg env w).trace,
      e.isCmdStream = false ∧ e.isStat = false ∧ e.isCheck = false ∧ e.isScan = false
        ∧ e.isWrite = false) ∧
    (Execute cfg env w).trace.getLast? = some (Event.slogWarn "has terraform init been run?") ∧
    (Execute cfg env w).world = w := by
  have h := RunEWith_not_initialized jsonMarshalIndent osWriteFile env w path hp hi
  simp [Execute, RunE, h, Event.isCmdStream, Event.isStat, Event.isCheck, Event.isScan,
    Event.isWrite]

/-- C6, at a root that holds a lock file and has not been through `terraform init`. -/
theorem init_not_initialized_only_warns_witness :
    lockedRoot.read ("/cfg/" ++ ".terrahash.lock.json") = some "\x7b\"Modules\": \x7b\x7d\x7d" ∧
    (Execute ⟨false, false, "Usage: terrahash init"⟩
      (exampleEnv (.ok "/cfg/") ("modules.json not found", false) (some "drift") (.ok vpcSet))
      lockedRoot).err = none ∧
    (Execute ⟨false, false, "Usage: terrahash init"⟩
      (exampleEnv (.ok "/cfg/") ("modules.json not found", false) (some "drift") (.ok vpcSet))
      lockedRoot).world = lockedRoot :=
  ⟨by decide,
    (init_not_initialized_only_warns ⟨false, false, "Usage: terrahash init"⟩
      (exampleEnv (.ok "/cfg/") ("modules.json not found", false) (some "drift") (.ok vpcSet))
      lockedRoot "/cfg/" rfl rfl).1,
    (init_not_initialized_only_warns ⟨false, false, "Usage: terrahash init"⟩
      (exampleEnv (.ok "/cfg/") ("modules.json not found", false) (some "drift") (.ok vpcSet))
      lockedRoot "/cfg/" rfl rfl).2.2.2⟩

/-- C7: when `setPath` returns an error, `init` returns that same error, and the run has
no call of `terraformInitialized`, no `os.Stat` of the lock file, no call of `check` or
`processModules` and no file write; every file is as it was. -/
theorem init_setPath_error_returned (env : Env) (w : World) (e : GoError)
    (hp : env.setPath w env.Source = .error e) :
    (RunE env w).err = some e ∧
    (∀ ev ∈ (RunE env w).trace,
      ev.isInitCheck = false ∧ ev.isStat = false ∧ ev.isCheck = false ∧ ev.isScan = false
        ∧ ev.isWrite = false) ∧
    (RunE env w).world = w := by
  rw [RunE, RunEWith_setPath_error jsonMarshalIndent osWriteFile env w e hp]
  simp [Event.isInitCheck, Event.isStat, Event.isCheck, Event.isScan, Event.isWrite]

/-- C7, for a source folder that does not exist. -/
theorem init_setPath_error_returned_witness :
    (RunE (exampleEnv (.error "stat missing: no such file or directory") ("", true) none
        (.ok vpcSet)) freshRoot).err = some "stat missing: no such file or directory" ∧
    (RunE (exampleEnv (.error "stat missing: no such file or directory") ("", true) none
        (.ok vpcSet)) freshRoot).world = freshRoot :=
  ⟨(init_setPath_error_returned
      (exampleEnv (.error "stat missing: no such file or directory") ("", true) none
        (.ok vpcSet)) freshRoot "stat missing: no such file or directory" rfl).1,
    (init_setPath_error_returned
      (exampleEnv (.error "stat missing: no such file or directory") ("", true) none
        (.ok vpcSet)) freshRoot "stat missing: no such file or directory" rfl).2.2⟩

/-- C8: with no lock file (path resolved, Terraform initialized), when `processModules`
returns an error `init` returns the error "error processing modules " followed by its text,
the run calls `processModules` once, writes no file, leaves every file as it was, and there
is still no lock file. -/
theorem init_scan_error_terminal (env : Env) (w : World) (path : String) (e : GoError)
    (hp : env.setPath w env.Source = .ok path)
    (hi : (env.terraformInitialized w path).2 = true)
    (hl : w.read (path ++ env.modFileName) = none)
    (hs : env.processModules w path env.IgnoreLocal = .error e) :
    (RunE env w).err = some ("error processing modules " ++ e) ∧
    (RunE env w).trace.filter Event.isScan = [Event.processModules path env.IgnoreLocal] ∧
    (RunE env w).trace.filter Event.isWrite = [] ∧
    (RunE env w).world = w ∧
    (RunE env w).world.read (path ++ env.modFileName) = none := by
  rw [RunE, RunEWith_scan_error jsonMarshalIndent osWriteFile env w path e hp hi hl hs]
  refine ⟨rfl, ?_, ?_, rfl, hl⟩ <;> simp [List.filter, Event.isScan, Event.isWrite]

/-- C8, for a scan that fails on unparsable metadata. -/
theorem init_scan_error_terminal_witness :
    freshRoot.read ("/cfg/" ++ ".terrahash.lock.json") = none ∧
    (RunE (exampleEnv (.ok "/cfg/") ("", true) none (.error "unexpected end of JSON input"))
      freshRoot).err = some ("error processing modules " ++ "unexpected end of JSON input") ∧
    (RunE (exampleEnv (.ok "/cfg/") ("", true) none (.error "unexpected end of JSON input"))
      freshRoot).world = freshRoot :=
  ⟨by decide,
    (init_scan_error_terminal
      (exampleEnv (.ok "/cfg/") ("", true) none (.error "unexpected end of JSON input"))
      freshRoot "/cfg/" "unexpected end of JSON input" rfl rfl (by decide) rfl).1,
    (init_scan_error_terminal
      (exampleEnv (.ok "/cfg/") ("", true) none (.error "unexpected end of JSON input"))
      freshRoot "/cfg/" "unexpected end of JSON input" rfl rfl (by decide) rfl).2.2.2.1⟩

/-- C9: with no lock file (path resolved, Terraform initialized), two scanned module sets
that are the same mapping from keys to records, in whatever order their entries come, make
`init` write the same bytes and leave the same files: the one write is the two-space-indented
document of either set, and its entries are in ascending key order. -/
theorem init_snapshot_deterministic (env : Env) (w : World) (path : String)
    (a b : SourcedModules)
    (hp : env.setPath w env.Source = .ok path)
    (hi : (env.terraformInitialized w path).2 = true)
    (hl : w.read (path ++ env.modFileName) = none)
    (hne : a.Modules ≠ [])
    (ha : NodupKeys a.Modules) (hb : NodupKeys b.Modules)
    (hab : SameMapping a.Modules b.Modules) :
    (RunE (env.withScan (.ok a)) w).trace.filter Event.isWrite
      = (RunE (env.withScan (.ok b)) w).trace.filter Event.isWrite ∧
    (RunE (env.withScan (.ok a)) w).trace.filter Event.isWrite
      = [Event.osWriteFile (path ++ env.modFileName) (jsonMarshalIndent b "" "  ").1] ∧
    (RunE (env.withScan (.ok a)) w).world = (RunE (env.withScan (.ok b)) w).world ∧
    ((sortByKey a.Modules).map Prod.fst).Sorted (· ≤ ·) := by
  have hperm : a.Modules.Perm b.Modules := perm_of_sameMapping ha hb hab
  have hla : a.Modules.length ≠ 0 := by simpa using hne
  have hlb : b.Modules.length ≠ 0 := by rw [← hperm.length_eq]; exact hla
  have hm : jsonMarshalIndent a "" "  " = jsonMarshalIndent b "" "  " :=
    jsonMarshalIndent_eq_of_sameMapping ha hb hab "" "  "
  have hfa := filter_isWrite_persist jsonMarshalIndent osWriteFile (env.withScan (.ok a)) w path a
    hp hi hl rfl hla
  have hfb := filter_isWrite_persist jsonMarshalIndent osWriteFile (env.withScan (.ok b)) w path b
    hp hi hl rfl hlb
  have hwa := RunEWith_persist jsonMarshalIndent osWriteFile (env.withScan (.ok a)) w path a
    hp hi hl rfl hla
  have hwb := RunEWith_persist jsonMarshalIndent osWriteFile (env.withScan (.ok b)) w path b
    hp hi hl rfl hlb
  refine ⟨?_, ?_, ?_, sortByKey_keys_sorted a.Modules⟩
  · rw [RunE, RunE, hfa, hfb, hm]; rfl
  · rw [RunE, hfa, hm]; rfl
  · rw [RunE, RunE, hwa, hwb, hm]; rfl

/-- C9, for the modules `vpc` and `eks` entered in the two possible orders. -/
theorem init_snapshot_deterministic_witness :
    NodupKeys vpcThenEks.Modules ∧ NodupKeys eksThenVpc.Modules ∧
    vpcThenEks.Modules ≠ eksThenVpc.Modules ∧
    (RunE ((exampleEnv (.ok "/cfg/") ("", true) none (.ok vpcSet)).withScan (.ok vpcThenEks))
        freshRoot).world
      = (RunE ((exampleEnv (.ok "/cfg/") ("", true) none (.ok vpcSet)).withScan (.ok eksThenVpc))
        freshRoot).world :=
  ⟨by decide, by decide, by decide,
    (init_snapshot_deterministic (exampleEnv (.ok "/cfg/") ("", true) none (.ok vpcSet))
      freshRoot "/cfg/" vpcThenEks eksThenVpc rfl rfl (by decide) (by decide) (by decide)
      (by decide)
      (by
        intro k
        by_cases h₁ : k = "vpc"
        · subst h₁; decide
        · by_cases h₂ : k = "eks"
          · subst h₂; decide
          · have e₁ : (k == "vpc") = false := by simpa using h₁
            have e₂ : (k == "eks") = false := by simpa using h₂
            simp [vpcThenEks, eksThenVpc, List.lookup, e₁, e₂])).2.2.1⟩

/-- C10: once `init` reaches the persist step (path resolved, Terraform initialized, no lock
file, scan succeeded with a non-empty set), it returns nil and its last output is the summary
with the size of the scanned set, whatever the encoder and the file write return: both
errors are dropped, the bytes of the encoder are handed to the one write as they are, and
the files are whatever the write left, also when it failed. -/
theorem init_persist_ignores_errors (marshal : Marshal) (write : WriteFile) (env : Env)
    (w : World) (path : String) (S : SourcedModules)
    (hp : env.setPath w env.Source = .ok path)
    (hi : (env.terraformInitialized w path).2 = true)
    (hl : w.read (path ++ env.modFileName) = none)
    (hs : env.processModules w path env.IgnoreLocal = .ok S)
    (hS : S.Modules ≠ []) :
    (RunEWith marshal write env w).err = none ∧
    (RunEWith marshal write env w).trace.getLast?
      = some (Event.stdout (summaryLine S.Modules.length)) ∧
    (RunEWith marshal write env w).trace.filter Event.isWrite
      = [Event.osWriteFile (path ++ env.modFileName) (marshal S "" "  ").1] ∧
    (RunEWith marshal write env w).world
      = (write w (path ++ env.modFileName) (marshal S "" "  ").1).1 := by
  have hlen : S.Modules.length ≠ 0 := by simpa using hS
  refine ⟨?_, ?_, filter_isWrite_persist marshal write env w path S hp hi hl hs hlen, ?_⟩
  · rw [RunEWith_persist marshal write env w path S hp hi hl hs hlen]
  · rw [RunEWith_persist marshal write env w path S hp hi hl hs hlen]; simp
  · rw [RunEWith_persist marshal write env w path S hp hi hl hs hlen]

/-- C10, with an encoder that fails and a root in which the lock file cannot be created:
`init` returns nil and reports one module added, and no lock file exists afterwards. -/
theorem init_persist_ignores_errors_witness :
    (failingMarshal vpcSet "" "  ").2 ≠ none ∧
    (osWriteFile readOnlyRoot ("/cfg/" ++ ".terrahash.lock.json")
      (failingMarshal vpcSet "" "  ").1).2 ≠ none ∧
    (RunEWith failingMarshal osWriteFile (exampleEnv (.ok "/cfg/") ("", true) none (.ok vpcSet))
      readOnlyRoot).err = none ∧
    (RunEWith failingMarshal osWriteFile (exampleEnv (.ok "/cfg/") ("", true) none (.ok vpcSet))
      readOnlyRoot).trace.getLast? = some (Event.stdout (summaryLine 1)) ∧
    (RunEWith failingMarshal osWriteFile (exampleEnv (.ok "/cfg/") ("", true) none (.ok vpcSet))
      readOnlyRoot).world = readOnlyRoot :=
  ⟨by decide, by decide,
    (init_persist_ignores_errors failingMarshal osWriteFile
      (exampleEnv (.ok "/cfg/") ("", true) none (.ok vpcSet)) readOnlyRoot "/cfg/" vpcSet
      rfl rfl (by decide) rfl (by decide)).1,
    (init_persist_ignores_errors failingMarshal osWriteFile
      (exampleEnv (.ok "/cfg/") ("", true) none (.ok vpcSet)) readOnlyRoot "/cfg/" vpcSet
      rfl rfl (by decide) rfl (by decide)).2.1,
    ((init_persist_ignores_errors failingMarshal osWriteFile
      (exampleEnv (.ok "/cfg/") ("", true) none (.ok vpcSet)) readOnlyRoot "/cfg/" vpcSet
      rfl rfl (by decide) rfl (by decide)).2.2.2).trans (by decide)⟩

end Terrahash
